import Mathlib

/-!
Verification of the feed→container orchestration engine in
`src/ldes-consumer/app.py`.

The Python program is shallowly embedded: dictionaries become insertion-ordered
association lists over `String`, the Docker runtime API becomes explicit
oracles (a lookup function for self-inspection, a success predicate for
`containers.run`, a status-refresh function for `reload`, a set of existing
container names for stop/remove), and exception-raising calls become
`Option`-valued oracles whose `none` result models a raised exception that the
Python code catches.  Every definition mirrors the corresponding lines of
`app.py`; values in YAML override maps are strings (the configuration format
declares flat string-keyed mappings), so Python's `str()` on them is the
identity and they are carried as `String`.
-/

namespace LdesConsumer

/-! ## Python dictionaries as insertion-ordered association lists -/

/-- An insertion-ordered string-keyed mapping, the embedding of a Python
`dict` of strings. -/
abbrev Env := List (String × String)

/-- Embedding of `d[k]` lookup / `k in d`: the value at the first matching
key, if any. -/
def lookupEnv (m : Env) (k : String) : Option String :=
  (m.find? (fun p => p.1 == k)).map (fun p => p.2)

/-- Embedding of Python `d.get(k, default)`. -/
def envGet (m : Env) (k d : String) : String :=
  (lookupEnv m k).getD d

/-- Embedding of Python `d[k] = v` on a dict: replace in place when the key is
present, append otherwise. -/
def dictSet (m : Env) (k v : String) : Env :=
  if (lookupEnv m k).isSome then
    m.map (fun p => if p.1 == k then (k, v) else p)
  else
    m ++ [(k, v)]

/-! ## Data model -/

/-- One feed entry of `ldes-feeds.yaml`: optional `url`, optional
`target_graph`, optional `environment` override map (absent map ≡ `[]`,
matching `feed_data.get("environment", {})`). -/
structure FeedData where
  url : Option String
  target_graph : Option String
  environment : Env

/-- The parsed configuration document: the optional top-level `feeds` mapping
(`none` models a document without a `feeds` section). -/
structure FeedsConfig where
  feeds : Option (List (String × FeedData))

/-- The process environment variables `app.py` consumes, each `none` when
unset, plus the working directory returned by `os.getcwd()`. -/
structure ProcEnv where
  HOSTNAME : Option String
  HOST_PWD : Option String
  GRAPH_PREFIX : Option String
  DOCKER_NETWORK : Option String
  GDB_REPO : Option String
  DEFAULT_SPARQL_ENDPOINT : Option String
  LDES_LOG_LEVEL : Option String
  LOG_LEVEL : Option String
  LDES_CONFIG_PATH : Option String
  LDES2SPARQL_IMAGE : Option String
  cwd : String

/-- What self-inspection of the orchestrator's own container can return:
its label set and the keys of its `NetworkSettings.Networks` mapping, in
order.  Missing attributes are modelled by empty lists. -/
structure SelfContainer where
  labels : Env
  networks : List String

/-- A tracked handle for one spawned container, identified by its runtime
name (the `containers.run` result object, observed through its name). -/
structure ManagedContainer where
  name : String
deriving DecidableEq, Repr

/-- The keyword arguments `process_feeds` passes to `containers.run`
(lines 221–239 of `app.py`); `detach`/`remove` are constants and omitted. -/
structure ContainerConfig where
  image : String
  name : String
  environment : Env
  stateDir : String
  labels : Option Env
  network : Option String

/-- Embedding of Python `str.lower()`: lowercase every character. -/
def pyLower (s : String) : String := ⟨s.data.map Char.toLower⟩

/-! ## Runtime context detection (`get_compose_labels`, `get_parent_network`,
lines 20–95) -/

/-- The compose-related label allow-list of `get_compose_labels`. -/
def compose_keys : List String :=
  ["com.docker.compose.project",
   "com.docker.compose.project.working_dir",
   "com.docker.compose.project.config_files"]

/-- Embedding of `get_compose_labels` (lines 20–62).  `hostname` is
`os.getenv("HOSTNAME")`; `lookup` is `docker_client.containers.get`, with
`none` modelling a raised exception (caught, returning `{}`).  Python's
`if not hostname` is falsy on both `None` and `""`. -/
def get_compose_labels (lookup : String → Option SelfContainer)
    (hostname : Option String) : Env :=
  match hostname with
  | none => []
  | some h =>
    if h = "" then []
    else
      match lookup h with
      | none => []
      | some c =>
        compose_keys.filterMap (fun k => (lookupEnv c.labels k).map (fun v => (k, v)))

/-- Embedding of `get_parent_network` (lines 65–95): the first key of the
container's `Networks` mapping, `none` on missing hostname, raised lookup,
or no networks. -/
def get_parent_network (lookup : String → Option SelfContainer)
    (hostname : Option String) : Option String :=
  match hostname with
  | none => none
  | some h =>
    if h = "" then none
    else
      match lookup h with
      | none => none
      | some c => c.networks.head?

/-- The network resolution of lines 147–152: the detected parent network,
falling back to the `DOCKER_NETWORK` environment variable when detection
yields nothing (`if not docker_network` is falsy on `None` and `""`). -/
def resolvedNetwork (penv : ProcEnv) (lookup : String → Option SelfContainer) :
    Option String :=
  match get_parent_network lookup penv.HOSTNAME with
  | none => penv.DOCKER_NETWORK
  | some n => if n = "" then penv.DOCKER_NETWORK else some n

/-! ## Feed environment building (`process_feeds`, lines 140–215) -/

/-- `graph_prefix = os.getenv("GRAPH_PREFIX", "ldes")` (line 141). -/
def graphPrefix (penv : ProcEnv) : String :=
  penv.GRAPH_PREFIX.getD "ldes"

/-- `gdb_repo = os.getenv("GDB_REPO", "kgap")` (line 154). -/
def gdbRepo (penv : ProcEnv) : String :=
  penv.GDB_REPO.getD "kgap"

/-- The `default_sparql_endpoint` value computed and printed at lines
154–161: `DEFAULT_SPARQL_ENDPOINT` when set, else the GraphDB repository
template.  Note this variable is only printed by the code, never used in the
environment build. -/
def defaultSparqlEndpoint (penv : ProcEnv) : String :=
  penv.DEFAULT_SPARQL_ENDPOINT.getD
    ("http://graphdb:7200/repositories/" ++ gdbRepo penv ++ "/statements")

/-- `host_pwd = os.getenv("HOST_PWD", os.getcwd())` (line 140). -/
def hostPwd (penv : ProcEnv) : String :=
  penv.HOST_PWD.getD penv.cwd

/-- `feed_state_dir` (line 168). -/
def feedStateDir (host_pwd feedName : String) : String :=
  host_pwd ++ "/data/ldes-consumer/state/" ++ feedName

/-- `default_target_graph = f"urn:kgap:{graph_prefix}:{feed_name}"`
(line 178). -/
def defaultTargetGraph (penv : ProcEnv) (feedName : String) : String :=
  "urn:kgap:" ++ graphPrefix penv ++ ":" ++ feedName

/-- `target_graph` resolution (lines 181–183):
`feed_env.get("TARGET_GRAPH", feed_data.get("target_graph",
default_target_graph))`. -/
def resolvedTargetGraph (penv : ProcEnv) (feedName : String) (fd : FeedData) :
    String :=
  envGet fd.environment "TARGET_GRAPH" (fd.target_graph.getD (defaultTargetGraph penv feedName))

/-- The dict literal `env_vars` of lines 187–205, before the extra-variable
loop.  `SPARQL_ENDPOINT` falls back to
`os.environ.get("DEFAULT_SPARQL_ENDPOINT", "")` (line 190), `LOG_LEVEL` is
lowercased, `LDES` is the feed's `url` field. -/
def requiredEnvVars (penv : ProcEnv) (feedName : String) (fd : FeedData) : Env :=
  let feed_url := fd.url.getD ""
  let feed_env := fd.environment
  [("SPARQL_ENDPOINT", envGet feed_env "SPARQL_ENDPOINT" (penv.DEFAULT_SPARQL_ENDPOINT.getD "")),
   ("TARGET_GRAPH", resolvedTargetGraph penv feedName fd),
   ("FOLLOW", envGet feed_env "FOLLOW" "false"),
   ("MEMBER_BATCH_SIZE", envGet feed_env "MEMBER_BATCH_SIZE" "500"),
   ("MATERIALIZE", envGet feed_env "MATERIALIZE" "false"),
   ("LOG_LEVEL", pyLower (envGet feed_env "LOG_LEVEL"
      (penv.LDES_LOG_LEVEL.getD (penv.LOG_LEVEL.getD "DEBUG")))),
   ("LDES", feed_url),
   ("POLLING_FREQUENCY", envGet feed_env "POLLING_FREQUENCY" "60000"),
   ("FAILURE_IS_FATAL", envGet feed_env "FAILURE_IS_FATAL" "false"),
   ("OPERATION_MODE", envGet feed_env "OPERATION_MODE" "Replication"),
   ("SHAPE", envGet feed_env "SHAPE" "")]

/-- The eleven environment-variable names `env_vars` always defines. -/
def requiredKeys : List String :=
  ["SPARQL_ENDPOINT", "TARGET_GRAPH", "FOLLOW", "MEMBER_BATCH_SIZE",
   "MATERIALIZE", "LOG_LEVEL", "LDES", "POLLING_FREQUENCY",
   "FAILURE_IS_FATAL", "OPERATION_MODE", "SHAPE"]

/-- The extra-variable loop of lines 208–210: each feed-environment entry is
appended unless its key is already present (`if env_key not in env_vars`). -/
def addExtras (env_vars : Env) : Env → Env
  | [] => env_vars
  | kv :: rest =>
    if (lookupEnv env_vars kv.1).isSome then addExtras env_vars rest
    else addExtras (env_vars ++ [kv]) rest

/-- The complete `env_vars` mapping handed to `containers.run` for one feed
(lines 187–210). -/
def buildEnvVars (penv : ProcEnv) (feedName : String) (fd : FeedData) : Env :=
  addExtras (requiredEnvVars penv feedName fd) fd.environment

/-! ## Container spawning (`process_feeds`, lines 217–252) -/

/-- `name=f"ldes-consumer-{feed_name}"` (line 223 and line 234). -/
def containerName (feedName : String) : String :=
  "ldes-consumer-" ++ feedName

/-- The `container_config` built for one feed (lines 221–239): labels are
attached only when compose labels were detected, with the service label set
to the container name; the network only when one was resolved. -/
def makeContainerConfig (penv : ProcEnv) (compose_labels : Env)
    (docker_network : Option String) (image feedName : String) (fd : FeedData) :
    ContainerConfig :=
  { image := image
    name := containerName feedName
    environment := buildEnvVars penv feedName fd
    stateDir := feedStateDir (hostPwd penv) feedName
    labels :=
      if compose_labels.isEmpty then none
      else some (dictSet compose_labels "com.docker.compose.service" (containerName feedName))
    network := docker_network }

/-- The configuration `process_feeds` passes to `containers.run` for a feed,
with context detection folded in. -/
def feedConfig (penv : ProcEnv) (lookup : String → Option SelfContainer)
    (image feedName : String) (fd : FeedData) : ContainerConfig :=
  makeContainerConfig penv (get_compose_labels lookup penv.HOSTNAME)
    (resolvedNetwork penv lookup) image feedName fd

/-- The spawn loop of lines 163–252: one `containers.run` per feed; on
success the handle is appended, on a raised exception (spawn returns
`false`) the feed is logged and skipped, and the loop continues. -/
def spawnLoop (penv : ProcEnv) (lookup : String → Option SelfContainer)
    (image : String) (spawn : ContainerConfig → Bool) :
    List (String × FeedData) → List ManagedContainer
  | [] => []
  | (feedName, fd) :: rest =>
    if spawn (feedConfig penv lookup image feedName fd) then
      ⟨containerName feedName⟩ :: spawnLoop penv lookup image spawn rest
    else
      spawnLoop penv lookup image spawn rest

/-- Embedding of `process_feeds` (lines 120–252): returns the tracked
container list, empty when the configuration has no `feeds` section. -/
def process_feeds (penv : ProcEnv) (lookup : String → Option SelfContainer)
    (feeds_config : FeedsConfig) (image : String)
    (spawn : ContainerConfig → Bool) : List ManagedContainer :=
  match feeds_config.feeds with
  | none => []
  | some feeds => spawnLoop penv lookup image spawn feeds

/-! ## Teardown (`cleanup_containers`, lines 255–279) -/

/-- Outcome of one iteration of the cleanup loop for handle `h` against a
runtime holding the containers `rt` (by name, unique in a real runtime):
when the container still exists and `stop` succeeds, stop-then-remove
deletes it; when `stop` raises (container already removed, or `stopFails`),
the exception is caught and logged and the runtime is unchanged.  The `Bool`
records whether an error was logged. -/
def cleanupOne (stopFails : String → Bool) (rt : List String) (h : String) :
    List String × Bool :=
  if h ∈ rt then
    if stopFails h then (rt, true)
    else (rt.filter (fun x => x ≠ h), false)
  else (rt, true)

/-- Result of `cleanup_containers`: the runtime contents afterwards, the
handles attempted in order, and how many per-handle errors were logged.  The
function always returns — no per-handle failure is fatal. -/
structure CleanupResult where
  runtime : List String
  attempted : List String
  errors : Nat
deriving DecidableEq, Repr

/-- Embedding of `cleanup_containers` (lines 255–279): every handle is
attempted in order; each failure is caught and logged. -/
def cleanup_containers (stopFails : String → Bool) (rt : List String) :
    List String → CleanupResult
  | [] => { runtime := rt, attempted := [], errors := 0 }
  | h :: rest =>
    let step := cleanupOne stopFails rt h
    let r := cleanup_containers stopFails step.1 rest
    { runtime := r.runtime
      attempted := h :: r.attempted
      errors := (if step.2 then 1 else 0) + r.errors }

/-! ## Supervision poll (`main`, lines 340–348) -/

/-- One pass of the monitoring loop: `refresh` is `container.reload()`
followed by reading `container.status`, with `none` modelling a raised
exception (caught by the bare `except`, the container skipped).  Returns
`active_containers`. -/
def pollAll (refresh : String → Option String) :
    List ManagedContainer → List ManagedContainer
  | [] => []
  | c :: rest =>
    match refresh c.name with
    | some s =>
      if s = "running" then c :: pollAll refresh rest
      else pollAll refresh rest
    | none => pollAll refresh rest

/-! ## Driver (`main`, lines 282–364) -/

/-- Observable steps `main` takes against its collaborators, in order. -/
inductive Event where
  | dockerPing
  | configLoad
  | spawnAttempt (feedName : String)
deriving DecidableEq, Repr

/-- How the startup portion of `main` ends: a process exit with a code, or
entry into the supervision loop with the tracked handles. -/
inductive MainOutcome where
  | exited (code : Nat)
  | supervising (tracked : List ManagedContainer)
deriving DecidableEq, Repr

/-- The spawn attempts `process_feeds` issues, one per feed entry. -/
def spawnEvents (cfg : FeedsConfig) : List Event :=
  match cfg.feeds with
  | none => []
  | some feeds => feeds.map (fun p => Event.spawnAttempt p.1)

/-- `ldes2sparql_image` resolution (lines 289–291). -/
def ldes2sparqlImage (penv : ProcEnv) : String :=
  penv.LDES2SPARQL_IMAGE.getD "ghcr.io/maregraph-eu/ldes2sparql:latest"

/-- Embedding of the startup sequence of `main` (lines 282–319):
`docker.from_env()` + `ping()` first (exit 1 if unreachable), then
`load_ldes_feeds` (exit 1 on missing file or YAML error, modelled by
`configResult = none`), then `process_feeds`.  The trace lists the
collaborator calls in program order. -/
def mainRun (penv : ProcEnv) (dockerReachable : Bool)
    (configResult : Option FeedsConfig)
    (lookup : String → Option SelfContainer)
    (spawn : ContainerConfig → Bool) : List Event × MainOutcome :=
  if !dockerReachable then
    ([Event.dockerPing], MainOutcome.exited 1)
  else
    match configResult with
    | none => ([Event.dockerPing, Event.configLoad], MainOutcome.exited 1)
    | some cfg =>
      ([Event.dockerPing, Event.configLoad] ++ spawnEvents cfg,
       MainOutcome.supervising
         (process_feeds penv lookup cfg (ldes2sparqlImage penv) spawn))

/-! ## Association-list lemmas -/

theorem lookupEnv_append (m₁ m₂ : Env) (k : String) :
    lookupEnv (m₁ ++ m₂) k = (lookupEnv m₁ k).or (lookupEnv m₂ k) := by
  unfold lookupEnv
  rw [List.find?_append]
  cases List.find? (fun p => p.1 == k) m₁ <;> simp

theorem lookupEnv_cons (kv : String × String) (m : Env) (k : String) :
    lookupEnv (kv :: m) k = if kv.1 = k then some kv.2 else lookupEnv m k := by
  unfold lookupEnv
  cases h : (kv.1 == k) with
  | true => simp [List.find?_cons, h, beq_iff_eq.mp h]
  | false =>
    have hne : kv.1 ≠ k := by simpa using h
    simp [List.find?_cons, h, hne]

theorem lookupEnv_eq_none (m : Env) (k : String) :
    lookupEnv m k = none ↔ k ∉ m.map Prod.fst := by
  simp only [lookupEnv, Option.map_eq_none', List.find?_eq_none, List.mem_map]
  constructor
  · rintro hall ⟨p, hp, hk⟩
    have hne := hall p hp
    simp only [beq_iff_eq] at hne
    exact hne hk
  · intro hnot p hp
    simp only [beq_iff_eq]
    intro hk
    exact hnot ⟨p, hp, hk⟩

theorem addExtras_lookup_isSome (fe : Env) :
    ∀ env k, (lookupEnv env k).isSome →
      lookupEnv (addExtras env fe) k = lookupEnv env k := by
  induction fe with
  | nil => intro env k _; rfl
  | cons kv rest ih =>
    intro env k hk
    cases hb : (lookupEnv env kv.1).isSome with
    | true => rw [addExtras, if_pos (by simp [hb])]; exact ih env k hk
    | false =>
      rw [addExtras, if_neg (by simp [hb])]
      have h2 : lookupEnv (env ++ [kv]) k = lookupEnv env k := by
        rw [lookupEnv_append]
        obtain ⟨v, hv⟩ := Option.isSome_iff_exists.mp hk
        simp [hv]
      rw [ih (env ++ [kv]) k (by rw [h2]; exact hk), h2]

theorem addExtras_lookup_new (fe : Env) :
    ∀ env k v, lookupEnv env k = none → lookupEnv fe k = some v →
      lookupEnv (addExtras env fe) k = some v := by
  induction fe with
  | nil => intro env k v _ hfe; simp [lookupEnv] at hfe
  | cons kv rest ih =>
    intro env k v henv hfe
    rw [lookupEnv_cons] at hfe
    by_cases hkk : kv.1 = k
    · rw [if_pos hkk] at hfe
      have hnone : (lookupEnv env kv.1).isSome = false := by
        rw [hkk, henv]; rfl
      rw [addExtras, if_neg (by simp [hnone])]
      have hsome : lookupEnv (env ++ [kv]) k = some v := by
        rw [lookupEnv_append, henv, lookupEnv_cons, if_pos hkk, hfe]
        rfl
      rw [addExtras_lookup_isSome rest (env ++ [kv]) k (by rw [hsome]; rfl), hsome]
    · rw [if_neg hkk] at hfe
      cases hb : (lookupEnv env kv.1).isSome with
      | true => rw [addExtras, if_pos (by simp [hb])]; exact ih env k v henv hfe
      | false =>
        rw [addExtras, if_neg (by simp [hb])]
        refine ih (env ++ [kv]) k v ?_ hfe
        rw [lookupEnv_append, henv, lookupEnv_cons, if_neg hkk]
        rfl

theorem addExtras_keys_nodup (fe : Env) :
    ∀ env : Env, (env.map Prod.fst).Nodup →
      ((addExtras env fe).map Prod.fst).Nodup := by
  induction fe with
  | nil => intro env h; exact h
  | cons kv rest ih =>
    intro env h
    cases hb : (lookupEnv env kv.1).isSome with
    | true => rw [addExtras, if_pos (by simp [hb])]; exact ih env h
    | false =>
      rw [addExtras, if_neg (by simp [hb])]
      refine ih (env ++ [kv]) ?_
      have hout : kv.1 ∉ env.map Prod.fst :=
        (lookupEnv_eq_none env kv.1).mp (Option.not_isSome_iff_eq_none.mp (by simp [hb]))
      simp [List.nodup_append, h, hout]

/-! ## Lemmas about the environment build -/

theorem requiredEnvVars_keys (penv : ProcEnv) (feedName : String) (fd : FeedData) :
    (requiredEnvVars penv feedName fd).map Prod.fst = requiredKeys := rfl

theorem buildEnvVars_required_lookup (penv : ProcEnv) (feedName : String)
    (fd : FeedData) (k : String) (hk : k ∈ requiredKeys) :
    lookupEnv (buildEnvVars penv feedName fd) k =
      lookupEnv (requiredEnvVars penv feedName fd) k := by
  apply addExtras_lookup_isSome
  simp only [requiredKeys, List.mem_cons, List.not_mem_nil, or_false] at hk
  rcases hk with rfl | rfl | rfl | rfl | rfl | rfl | rfl | rfl | rfl | rfl | rfl <;> rfl

/-! ## Lemmas about the spawn loop -/

theorem spawnLoop_append (penv : ProcEnv) (lookup : String → Option SelfContainer)
    (image : String) (spawn : ContainerConfig → Bool)
    (l₁ l₂ : List (String × FeedData)) :
    spawnLoop penv lookup image spawn (l₁ ++ l₂) =
      spawnLoop penv lookup image spawn l₁ ++ spawnLoop penv lookup image spawn l₂ := by
  induction l₁ with
  | nil => rfl
  | cons p rest ih =>
    obtain ⟨n, d⟩ := p
    rw [List.cons_append, spawnLoop, spawnLoop]
    split <;> simp [ih]

theorem spawnLoop_all_success (penv : ProcEnv) (lookup : String → Option SelfContainer)
    (image : String) (spawn : ContainerConfig → Bool)
    (feeds : List (String × FeedData))
    (h : ∀ p ∈ feeds, spawn (feedConfig penv lookup image p.1 p.2) = true) :
    spawnLoop penv lookup image spawn feeds =
      feeds.map (fun p => ⟨containerName p.1⟩) := by
  induction feeds with
  | nil => rfl
  | cons p rest ih =>
    obtain ⟨n, d⟩ := p
    rw [spawnLoop, if_pos (h (n, d) (by simp)), List.map_cons]
    exact congrArg _ (ih (fun q hq => h q (List.mem_cons_of_mem _ hq)))

/-! ## Lemmas about teardown -/

theorem cleanupOne_fst_subset (stopFails : String → Bool) (rt : List String)
    (h x : String) (hx : x ∈ (cleanupOne stopFails rt h).1) : x ∈ rt := by
  unfold cleanupOne at hx
  split at hx
  · split at hx
    · exact hx
    · exact List.mem_of_mem_filter hx
  · exact hx

theorem cleanup_attempted (stopFails : String → Bool) :
    ∀ handles rt, (cleanup_containers stopFails rt handles).attempted = handles := by
  intro handles
  induction handles with
  | nil => intro rt; rfl
  | cons h rest ih => intro rt; rw [cleanup_containers]; exact congrArg _ (ih _)

theorem cleanup_runtime_subset (stopFails : String → Bool) :
    ∀ handles rt x, x ∈ (cleanup_containers stopFails rt handles).runtime → x ∈ rt := by
  intro handles
  induction handles with
  | nil => intro rt x hx; exact hx
  | cons h rest ih =>
    intro rt x hx
    rw [cleanup_containers] at hx
    exact cleanupOne_fst_subset stopFails rt h x (ih _ x hx)

theorem cleanup_not_mem (stopFails : String → Bool)
    (hsf : ∀ x, stopFails x = false) :
    ∀ handles rt h, h ∈ handles →
      h ∉ (cleanup_containers stopFails rt handles).runtime := by
  intro handles
  induction handles with
  | nil => intro rt h hh; exact absurd hh (List.not_mem_nil h)
  | cons h0 rest ih =>
    intro rt h hh
    rw [cleanup_containers]
    rcases List.mem_cons.mp hh with rfl | hmem
    · intro hcontra
      have hstep : h ∉ (cleanupOne stopFails rt h).1 := by
        unfold cleanupOne
        split
        · rw [hsf h]
          simp
        · assumption
      exact hstep (cleanup_runtime_subset stopFails rest _ h hcontra)
    · exact ih _ h hmem

theorem cleanup_absent_fixed (stopFails : String → Bool) :
    ∀ handles rt, (∀ h ∈ handles, h ∉ rt) →
      (cleanup_containers stopFails rt handles).runtime = rt := by
  intro handles
  induction handles with
  | nil => intro rt _; rfl
  | cons h0 rest ih =>
    intro rt habs
    rw [cleanup_containers]
    have hstep : cleanupOne stopFails rt h0 = (rt, true) := by
      unfold cleanupOne
      rw [if_neg (habs h0 (by simp))]
    rw [hstep]
    exact ih rt (fun h hh => habs h (List.mem_cons_of_mem _ hh))

/-! ## Lemmas about the poll pass -/

theorem pollAll_eq_filter (refresh : String → Option String) :
    ∀ cs, pollAll refresh cs =
      cs.filter (fun c => refresh c.name == some "running") := by
  intro cs
  induction cs with
  | nil => rfl
  | cons c rest ih =>
    rw [pollAll]
    cases hr : refresh c.name with
    | none => simp [List.filter_cons, hr, ih]
    | some s =>
      by_cases hs : s = "running" <;> simp [List.filter_cons, hr, hs, ih]

/-! ## Container naming -/

theorem containerName_injective (a b : String)
    (h : containerName a = containerName b) : a = b := by
  apply String.ext
  have h2 := congrArg String.data h
  simp only [containerName, String.data_append] at h2
  exact List.append_cancel_left h2

/-! ## Concrete fixtures used to evaluate the claims -/

/-- A process environment with every variable unset. -/
def penvW : ProcEnv :=
  { HOSTNAME := none, HOST_PWD := none, GRAPH_PREFIX := none,
    DOCKER_NETWORK := none, GDB_REPO := none, DEFAULT_SPARQL_ENDPOINT := none,
    LDES_LOG_LEVEL := none, LOG_LEVEL := none, LDES_CONFIG_PATH := none,
    LDES2SPARQL_IMAGE := none, cwd := "/app" }

/-- A feed with a url and no overrides. -/
def fdPlain : FeedData :=
  { url := some "https://example.org/feed", target_graph := none, environment := [] }

/-- Self-inspection that always raises (no container found). -/
def lookupNone : String → Option SelfContainer := fun _ => none

/-- A spawn oracle on which every `containers.run` call succeeds. -/
def spawnAlways : ContainerConfig → Bool := fun _ => true

/-! ## Claims -/

/-- C1: the claim says that a feed without a `SPARQL_ENDPOINT` override
resolves it to `DEFAULT_SPARQL_ENDPOINT` when set and otherwise to the
computed template `http://graphdb:7200/repositories/<repo>/statements`.
The code computes and prints exactly that template fallback
(`default_sparql_endpoint`, lines 154–161, "Default SPARQL endpoint (if not
overridden by feed config)") but then never uses it: line 190 falls back to
`os.environ.get("DEFAULT_SPARQL_ENDPOINT", "")`.  With
`DEFAULT_SPARQL_ENDPOINT` unset, the resolved value is `""` while the
value the code itself documents as the default is
`http://graphdb:7200/repositories/kgap/statements` — a code bug. -/
theorem C1_sparql_endpoint_bug :
    lookupEnv (buildEnvVars penvW "myfeed" fdPlain) "SPARQL_ENDPOINT" = some "" ∧
    defaultSparqlEndpoint penvW = "http://graphdb:7200/repositories/kgap/statements" ∧
    ("" : String) ≠ "http://graphdb:7200/repositories/kgap/statements" :=
  ⟨rfl, rfl, by decide⟩

/-- C3: resolved-value precedence for the target-graph key (the one logical
key supplied by all three sources): the `TARGET_GRAPH` entry of the override
map wins; absent that, the feed's `target_graph` shorthand field; absent
both, the computed default `urn:kgap:<prefix>:<feedName>`. -/
theorem C3_env_precedence (penv : ProcEnv) (feedName : String) (fd : FeedData) :
    (∀ o, lookupEnv fd.environment "TARGET_GRAPH" = some o →
       lookupEnv (buildEnvVars penv feedName fd) "TARGET_GRAPH" = some o) ∧
    (∀ s, lookupEnv fd.environment "TARGET_GRAPH" = none → fd.target_graph = some s →
       lookupEnv (buildEnvVars penv feedName fd) "TARGET_GRAPH" = some s) ∧
    (lookupEnv fd.environment "TARGET_GRAPH" = none → fd.target_graph = none →
       lookupEnv (buildEnvVars penv feedName fd) "TARGET_GRAPH" =
         some (defaultTargetGraph penv feedName)) := by
  have hreq : lookupEnv (buildEnvVars penv feedName fd) "TARGET_GRAPH" =
      some (resolvedTargetGraph penv feedName fd) := by
    rw [buildEnvVars_required_lookup penv feedName fd "TARGET_GRAPH" (by decide)]
    rfl
  refine ⟨?_, ?_, ?_⟩
  · intro o ho
    rw [hreq]
    simp [resolvedTargetGraph, envGet, ho]
  · intro s hn hs
    rw [hreq]
    simp [resolvedTargetGraph, envGet, hn, hs]
  · intro hn hg
    rw [hreq]
    simp [resolvedTargetGraph, envGet, hn, hg]

/-- Witness for C3 at concrete inputs: override present, shorthand only,
and neither. -/
theorem C3_env_precedence_witness :
    lookupEnv (buildEnvVars penvW "sensors"
      { url := some "https://u", target_graph := some "urn:short",
        environment := [("TARGET_GRAPH", "urn:override")] }) "TARGET_GRAPH" =
      some "urn:override" ∧
    lookupEnv (buildEnvVars penvW "sensors"
      { url := some "https://u", target_graph := some "urn:short",
        environment := [] }) "TARGET_GRAPH" = some "urn:short" ∧
    lookupEnv (buildEnvVars penvW "sensors"
      { url := some "https://u", target_graph := none,
        environment := [] }) "TARGET_GRAPH" = some "urn:kgap:ldes:sensors" :=
  ⟨(C3_env_precedence penvW "sensors" _).1 "urn:override" rfl,
   (C3_env_precedence penvW "sensors" _).2.1 "urn:short" rfl rfl,
   (C3_env_precedence penvW "sensors" _).2.2 rfl rfl⟩

/-- A feed that tries to override the `LDES` source-URL key through its
environment map. -/
def fdLdesOverride : FeedData :=
  { url := some "https://real.example/feed", target_graph := none,
    environment := [("LDES", "https://override.example/feed")] }

/-- C10 counterexample: the claim says every required key other than
`LOG_LEVEL` receives its override value unchanged, but the `LDES` key is set
from the feed's `url` field only (line 200); an `LDES` entry in the override
map is silently ignored because the extra-variable loop skips keys already
present. -/
theorem C10_counterexample :
    lookupEnv fdLdesOverride.environment "LDES" =
      some "https://override.example/feed" ∧
    lookupEnv (buildEnvVars penvW "f" fdLdesOverride) "LDES" =
      some "https://real.example/feed" ∧
    ("https://real.example/feed" : String) ≠ "https://override.example/feed" :=
  ⟨rfl, rfl, by decide⟩

/-- C10 (amended): the resolved `LOG_LEVEL` is always lowercased, both when
the override map supplies it and when the process-environment default chain
supplies it; every other required key that reads the override map
(`SPARQL_ENDPOINT`, `TARGET_GRAPH`, `FOLLOW`, `MEMBER_BATCH_SIZE`,
`MATERIALIZE`, `POLLING_FREQUENCY`, `FAILURE_IS_FATAL`, `OPERATION_MODE`,
`SHAPE`) receives its override value unchanged; the `LDES` key is the
exception: it always holds the feed's `url` field and ignores any `LDES`
entry in the override map. -/
theorem C10_log_level_lowercased (penv : ProcEnv) (feedName : String) (fd : FeedData) :
    (∀ v, lookupEnv fd.environment "LOG_LEVEL" = some v →
       lookupEnv (buildEnvVars penv feedName fd) "LOG_LEVEL" = some (pyLower v)) ∧
    (lookupEnv fd.environment "LOG_LEVEL" = none →
       lookupEnv (buildEnvVars penv feedName fd) "LOG_LEVEL" =
         some (pyLower (penv.LDES_LOG_LEVEL.getD (penv.LOG_LEVEL.getD "DEBUG")))) ∧
    (∀ k, k ∈ ["SPARQL_ENDPOINT", "TARGET_GRAPH", "FOLLOW", "MEMBER_BATCH_SIZE",
        "MATERIALIZE", "POLLING_FREQUENCY", "FAILURE_IS_FATAL", "OPERATION_MODE",
        "SHAPE"] →
       ∀ v, lookupEnv fd.environment k = some v →
         lookupEnv (buildEnvVars penv feedName fd) k = some v) ∧
    lookupEnv (buildEnvVars penv feedName fd) "LDES" = some (fd.url.getD "") := by
  have hll : lookupEnv (buildEnvVars penv feedName fd) "LOG_LEVEL" =
      some (pyLower (envGet fd.environment "LOG_LEVEL"
        (penv.LDES_LOG_LEVEL.getD (penv.LOG_LEVEL.getD "DEBUG")))) := by
    rw [buildEnvVars_required_lookup penv feedName fd "LOG_LEVEL" (by decide)]
    rfl
  refine ⟨?_, ?_, ?_, ?_⟩
  · intro v hv
    rw [hll]
    simp [envGet, hv]
  · intro hn
    rw [hll]
    simp [envGet, hn]
  · intro k hk v hv
    simp only [List.mem_cons, List.not_mem_nil, or_false] at hk
    rcases hk with rfl | rfl | rfl | rfl | rfl | rfl | rfl | rfl | rfl <;>
      · rw [buildEnvVars_required_lookup penv feedName fd _ (by decide)]
        simp [requiredEnvVars, lookupEnv_cons, resolvedTargetGraph, envGet, hv]
  · rw [buildEnvVars_required_lookup penv feedName fd "LDES" (by decide)]
    rfl

/-- A feed with an uppercase `LOG_LEVEL` override and a `FOLLOW` override. -/
def fdUpperLog : FeedData :=
  { url := some "https://u", target_graph := none,
    environment := [("LOG_LEVEL", "INFO"), ("FOLLOW", "True")] }

/-- Witness for C10 (amended) at a concrete feed: an uppercase `LOG_LEVEL`
override comes out lowercased, a `FOLLOW` override is untouched, and `LDES`
holds the `url` field. -/
theorem C10_log_level_lowercased_witness :
    lookupEnv (buildEnvVars penvW "f" fdUpperLog) "LOG_LEVEL" = some "info" ∧
    lookupEnv (buildEnvVars penvW "f" fdUpperLog) "FOLLOW" = some "True" ∧
    lookupEnv (buildEnvVars penvW "f" fdUpperLog) "LDES" = some "https://u" :=
  ⟨((C10_log_level_lowercased penvW "f" fdUpperLog).1 "INFO" rfl).trans (by decide),
   (C10_log_level_lowercased penvW "f" fdUpperLog).2.2.1 "FOLLOW" (by decide) "True" rfl,
   (C10_log_level_lowercased penvW "f" fdUpperLog).2.2.2⟩

/-- C2 counterexample: the claim says a missing or malformed configuration
file makes the process exit non-zero before any runtime-API call.  In
`main` (lines 299–313) the Docker client is created and pinged first and
`load_ldes_feeds` runs only afterwards: with the Docker daemon reachable and
the configuration file missing, the process does exit 1, but the runtime-API
ping has already happened — it is the first event of the trace. -/
theorem C2_counterexample :
    (mainRun penvW true none lookupNone spawnAlways).2 = MainOutcome.exited 1 ∧
    Event.dockerPing ∈ (mainRun penvW true none lookupNone spawnAlways).1 ∧
    (mainRun penvW true none lookupNone spawnAlways).1 =
      [Event.dockerPing, Event.configLoad] :=
  ⟨rfl, by decide, rfl⟩

/-- C2 (amended): the Orchestration Driver establishes runtime-API
connectivity before loading the configuration.  An unreachable runtime API
at startup exits non-zero with no configuration read and no container
spawned; a missing or malformed configuration file exits non-zero after the
connectivity check but still before any spawn attempt. -/
theorem C2_startup_order (penv : ProcEnv) (cfgRes : Option FeedsConfig)
    (lookup : String → Option SelfContainer) (spawn : ContainerConfig → Bool) :
    ((mainRun penv false cfgRes lookup spawn).2 = MainOutcome.exited 1 ∧
     (mainRun penv false cfgRes lookup spawn).1 = [Event.dockerPing]) ∧
    ((mainRun penv true none lookup spawn).2 = MainOutcome.exited 1 ∧
     (mainRun penv true none lookup spawn).1 =
       [Event.dockerPing, Event.configLoad]) :=
  ⟨⟨rfl, rfl⟩, ⟨rfl, rfl⟩⟩

/-- A feed whose override map adds a custom key beyond the required set. -/
def fdExtra : FeedData :=
  { url := some "https://example.org/feed", target_graph := none,
    environment := [("CUSTOM_KEY", "42"), ("FOLLOW", "true")] }

/-- C4: the produced environment defines all eleven required keys, its keys
are pairwise distinct (each key present exactly once), every override key
outside the required set is passed through with its value unchanged, and the
extra-variable loop never displaces a required key (the lookup of each
required key is exactly the one computed by the `env_vars` literal). -/
theorem C4_env_completeness (penv : ProcEnv) (feedName : String) (fd : FeedData) :
    (∀ k, k ∈ requiredKeys →
       (lookupEnv (buildEnvVars penv feedName fd) k).isSome = true) ∧
    ((buildEnvVars penv feedName fd).map Prod.fst).Nodup ∧
    (∀ k v, k ∉ requiredKeys → lookupEnv fd.environment k = some v →
       lookupEnv (buildEnvVars penv feedName fd) k = some v) ∧
    (∀ k, k ∈ requiredKeys →
       lookupEnv (buildEnvVars penv feedName fd) k =
         lookupEnv (requiredEnvVars penv feedName fd) k) := by
  refine ⟨?_, ?_, ?_, ?_⟩
  · intro k hk
    rw [buildEnvVars_required_lookup penv feedName fd k hk]
    simp only [requiredKeys, List.mem_cons, List.not_mem_nil, or_false] at hk
    rcases hk with rfl | rfl | rfl | rfl | rfl | rfl | rfl | rfl | rfl | rfl | rfl <;> rfl
  · apply addExtras_keys_nodup
    rw [requiredEnvVars_keys]
    decide
  · intro k v hk hv
    apply addExtras_lookup_new _ _ _ _ _ hv
    rw [lookupEnv_eq_none, requiredEnvVars_keys]
    exact hk
  · intro k hk
    exact buildEnvVars_required_lookup penv feedName fd k hk

/-- Witness for C4: on a feed with a custom override key, a required key is
present, the key list is duplicate-free, and the custom key is passed
through with its value. -/
theorem C4_env_completeness_witness :
    (lookupEnv (buildEnvVars penvW "sensors" fdExtra) "FOLLOW").isSome = true ∧
    ((buildEnvVars penvW "sensors" fdExtra).map Prod.fst).Nodup ∧
    lookupEnv (buildEnvVars penvW "sensors" fdExtra) "CUSTOM_KEY" = some "42" :=
  ⟨(C4_env_completeness penvW "sensors" fdExtra).1 "FOLLOW" (by decide),
   (C4_env_completeness penvW "sensors" fdExtra).2.1,
   (C4_env_completeness penvW "sensors" fdExtra).2.2.1 "CUSTOM_KEY" "42"
     (by decide) rfl⟩

/-- C5: when exactly one feed's spawn call fails, the remaining feeds are
all spawned and tracked in configuration order, the tracked list has N−1
entries, and the failing feed's container is not among them; the loop never
aborts on a single failure (the `except` at lines 245–248 catches it and the
iteration continues). -/
theorem C5_partial_failure (penv : ProcEnv) (lookup : String → Option SelfContainer)
    (image : String) (spawn : ContainerConfig → Bool)
    (pre post : List (String × FeedData)) (badName : String) (badFd : FeedData)
    (hbad : spawn (feedConfig penv lookup image badName badFd) = false)
    (hok : ∀ p ∈ pre ++ post, spawn (feedConfig penv lookup image p.1 p.2) = true)
    (hname : badName ∉ (pre ++ post).map Prod.fst) :
    process_feeds penv lookup ⟨some (pre ++ (badName, badFd) :: post)⟩ image spawn =
      (pre ++ post).map (fun p => ⟨containerName p.1⟩) ∧
    (process_feeds penv lookup ⟨some (pre ++ (badName, badFd) :: post)⟩ image spawn).length =
      (pre ++ (badName, badFd) :: post).length - 1 ∧
    (⟨containerName badName⟩ : ManagedContainer) ∉
      process_feeds penv lookup ⟨some (pre ++ (badName, badFd) :: post)⟩ image spawn := by
  have hpre : ∀ p ∈ pre, spawn (feedConfig penv lookup image p.1 p.2) = true :=
    fun p hp => hok p (List.mem_append_left _ hp)
  have hpost : ∀ p ∈ post, spawn (feedConfig penv lookup image p.1 p.2) = true :=
    fun p hp => hok p (List.mem_append_right _ hp)
  have hrun : process_feeds penv lookup ⟨some (pre ++ (badName, badFd) :: post)⟩ image spawn =
      (pre ++ post).map (fun p => ⟨containerName p.1⟩) := by
    show spawnLoop penv lookup image spawn (pre ++ (badName, badFd) :: post) = _
    rw [spawnLoop_append, spawnLoop, if_neg (by simp [hbad]),
      spawnLoop_all_success penv lookup image spawn pre hpre,
      spawnLoop_all_success penv lookup image spawn post hpost, List.map_append]
  refine ⟨hrun, ?_, ?_⟩
  · rw [hrun]
    simp [Nat.add_assoc]
  · rw [hrun]
    intro hmem
    obtain ⟨p, hp, hpeq⟩ := List.mem_map.mp hmem
    have : p.1 = badName :=
      containerName_injective _ _ (congrArg ManagedContainer.name hpeq)
    exact hname (List.mem_map.mpr ⟨p, hp, this⟩)

/-- A spawn oracle that fails exactly on the container named
`ldes-consumer-bad`. -/
def spawnNotBad : ContainerConfig → Bool := fun cc => cc.name != "ldes-consumer-bad"

/-- Witness for C5: three feeds of which the middle one fails to spawn; the
other two are tracked in order and the failed one is absent. -/
theorem C5_partial_failure_witness :
    process_feeds penvW lookupNone
        ⟨some [("a", fdPlain), ("bad", fdPlain), ("c", fdPlain)]⟩
        "img" spawnNotBad =
      [⟨"ldes-consumer-a"⟩, ⟨"ldes-consumer-c"⟩] ∧
    (⟨"ldes-consumer-bad"⟩ : ManagedContainer) ∉
      process_feeds penvW lookupNone
        ⟨some [("a", fdPlain), ("bad", fdPlain), ("c", fdPlain)]⟩
        "img" spawnNotBad := by
  have h := C5_partial_failure penvW lookupNone "img" spawnNotBad
    [("a", fdPlain)] [("c", fdPlain)] "bad" fdPlain (by decide) (by decide) (by decide)
  exact ⟨h.1, h.2.2⟩

/-- C6: when every spawn call succeeds, exactly N containers result (one per
feed entry, in order), each named `ldes-consumer-<feedName>` — a pure
function of the feed name that is injective, so distinct feed names give
distinct container names and a duplicate-free feed-name list gives a
duplicate-free handle list (no collisions). -/
theorem C6_all_success (penv : ProcEnv) (lookup : String → Option SelfContainer)
    (image : String) (spawn : ContainerConfig → Bool)
    (feeds : List (String × FeedData))
    (hok : ∀ p ∈ feeds, spawn (feedConfig penv lookup image p.1 p.2) = true) :
    (process_feeds penv lookup ⟨some feeds⟩ image spawn).length = feeds.length ∧
    process_feeds penv lookup ⟨some feeds⟩ image spawn =
      feeds.map (fun p => ⟨containerName p.1⟩) ∧
    (∀ a b : String, containerName a = containerName b → a = b) ∧
    ((feeds.map Prod.fst).Nodup →
      ((process_feeds penv lookup ⟨some feeds⟩ image spawn).map
        ManagedContainer.name).Nodup) := by
  have hmap : process_feeds penv lookup ⟨some feeds⟩ image spawn =
      feeds.map (fun p => ⟨containerName p.1⟩) :=
    spawnLoop_all_success penv lookup image spawn feeds hok
  refine ⟨by rw [hmap]; simp, hmap, containerName_injective, ?_⟩
  intro hnd
  rw [hmap]
  have : (feeds.map (fun p => (⟨containerName p.1⟩ : ManagedContainer))).map
      ManagedContainer.name = (feeds.map Prod.fst).map containerName := by
    simp
  rw [this]
  exact hnd.map (fun a b h => containerName_injective a b h)

/-- Witness for C6: two feeds, both spawns succeed, two handles with the
derived names and no duplicate. -/
theorem C6_all_success_witness :
    process_feeds penvW lookupNone ⟨some [("a", fdPlain), ("b", fdPlain)]⟩
        "img" spawnAlways =
      [⟨"ldes-consumer-a"⟩, ⟨"ldes-consumer-b"⟩] ∧
    ((process_feeds penvW lookupNone ⟨some [("a", fdPlain), ("b", fdPlain)]⟩
        "img" spawnAlways).map ManagedContainer.name).Nodup := by
  have h := C6_all_success penvW lookupNone "img" spawnAlways
    [("a", fdPlain), ("b", fdPlain)] (by decide)
  exact ⟨h.2.1, h.2.2.2 (by decide)⟩

/-- C7: teardown is best-effort and idempotent.  Every handle is attempted
in order no matter how many earlier handles failed, and the function always
returns (each per-handle exception is caught at lines 278–279 — never
fatal).  When stop calls succeed, the first `cleanup_containers` run leaves
no handle of the set in the runtime, and a second run on the same handle set
leaves the runtime unchanged (each stop on an already-removed handle raises,
is caught, and is logged rather than escalated) while still attempting every
handle. -/
theorem C7_teardown_idempotent (stopFails : String → Bool) (rt handles : List String) :
    (cleanup_containers stopFails rt handles).attempted = handles ∧
    ((∀ x, stopFails x = false) →
      (∀ h ∈ handles, h ∉ (cleanup_containers stopFails rt handles).runtime) ∧
      (cleanup_containers stopFails
          (cleanup_containers stopFails rt handles).runtime handles).runtime =
        (cleanup_containers stopFails rt handles).runtime ∧
      (cleanup_containers stopFails
          (cleanup_containers stopFails rt handles).runtime handles).attempted =
        handles) := by
  refine ⟨cleanup_attempted stopFails handles rt, fun hsf => ⟨?_, ?_, ?_⟩⟩
  · exact fun h hh => cleanup_not_mem stopFails hsf handles rt h hh
  · exact cleanup_absent_fixed stopFails handles _
      (fun h hh => cleanup_not_mem stopFails hsf handles rt h hh)
  · exact cleanup_attempted stopFails handles _

/-- Witness for C7: a runtime holding one of the two handles plus an
unrelated container; both handles are attempted, the tracked handles are
gone after the first run, and the second run changes nothing. -/
theorem C7_teardown_idempotent_witness :
    (cleanup_containers (fun _ => false) ["ldes-consumer-a", "other"]
        ["ldes-consumer-a", "ldes-consumer-b"]).attempted =
      ["ldes-consumer-a", "ldes-consumer-b"] ∧
    "ldes-consumer-a" ∉
      (cleanup_containers (fun _ => false) ["ldes-consumer-a", "other"]
        ["ldes-consumer-a", "ldes-consumer-b"]).runtime ∧
    (cleanup_containers (fun _ => false)
        (cleanup_containers (fun _ => false) ["ldes-consumer-a", "other"]
          ["ldes-consumer-a", "ldes-consumer-b"]).runtime
        ["ldes-consumer-a", "ldes-consumer-b"]).runtime =
      (cleanup_containers (fun _ => false) ["ldes-consumer-a", "other"]
        ["ldes-consumer-a", "ldes-consumer-b"]).runtime := by
  have h := C7_teardown_idempotent (fun _ => false) ["ldes-consumer-a", "other"]
    ["ldes-consumer-a", "ldes-consumer-b"]
  exact ⟨h.1, (h.2 (fun _ => rfl)).1 "ldes-consumer-a" (by decide),
    (h.2 (fun _ => rfl)).2.1⟩

/-- C8: one pass of the supervision poll refreshes every tracked handle; its
running count is exactly the number of handles whose refreshed status is
`running`; a handle whose refresh raises (`refresh = none`) is excluded, and
the pass is a total function — a refresh failure never crashes the loop
(the bare `except` at lines 346–348 swallows it). -/
theorem C8_poll_refresh (refresh : String → Option String)
    (cs : List ManagedContainer) :
    (pollAll refresh cs).length =
      (cs.filter (fun c => refresh c.name == some "running")).length ∧
    (∀ c, refresh c.name = none → c ∉ pollAll refresh cs) ∧
    (∀ c ∈ cs, refresh c.name = some "running" → c ∈ pollAll refresh cs) := by
  have hf := pollAll_eq_filter refresh cs
  refine ⟨by rw [hf], ?_, ?_⟩
  · intro c hr
    rw [hf]
    intro hmem
    have := List.of_mem_filter hmem
    rw [hr] at this
    exact absurd this (by decide)
  · intro c hc hr
    rw [hf]
    exact List.mem_filter.mpr ⟨hc, by simp [hr]⟩

/-- A refresh oracle: container `ldes-consumer-a` is running,
`ldes-consumer-b` raises on reload, `ldes-consumer-c` has exited. -/
def refreshW : String → Option String := fun n =>
  if n = "ldes-consumer-a" then some "running"
  else if n = "ldes-consumer-b" then none
  else some "exited"

/-- Witness for C8 on three handles: running count 1, the raising handle
excluded, the running handle included. -/
theorem C8_poll_refresh_witness :
    (pollAll refreshW
        [⟨"ldes-consumer-a"⟩, ⟨"ldes-consumer-b"⟩, ⟨"ldes-consumer-c"⟩]).length = 1 ∧
    (⟨"ldes-consumer-b"⟩ : ManagedContainer) ∉ pollAll refreshW
        [⟨"ldes-consumer-a"⟩, ⟨"ldes-consumer-b"⟩, ⟨"ldes-consumer-c"⟩] ∧
    (⟨"ldes-consumer-a"⟩ : ManagedContainer) ∈ pollAll refreshW
        [⟨"ldes-consumer-a"⟩, ⟨"ldes-consumer-b"⟩, ⟨"ldes-consumer-c"⟩] := by
  have h := C8_poll_refresh refreshW
    [⟨"ldes-consumer-a"⟩, ⟨"ldes-consumer-b"⟩, ⟨"ldes-consumer-c"⟩]
  exact ⟨h.1.trans (by decide), h.2.1 ⟨"ldes-consumer-b"⟩ (by decide),
    h.2.2 ⟨"ldes-consumer-a"⟩ (by decide) (by decide)⟩

/-- C9: runtime-context detection never fails the run.  Both detection
functions are total, and whenever no self-identity is resolvable — the
`HOSTNAME` variable unset or empty, the self-lookup raising, or the
container carrying no compose labels and no networks — `get_compose_labels`
returns the empty mapping and `get_parent_network` returns nothing. -/
theorem C9_context_detection (lookup : String → Option SelfContainer) :
    (get_compose_labels lookup none = [] ∧ get_parent_network lookup none = none) ∧
    (get_compose_labels lookup (some "") = [] ∧
     get_parent_network lookup (some "") = none) ∧
    (∀ h, lookup h = none →
       get_compose_labels lookup (some h) = [] ∧
       get_parent_network lookup (some h) = none) ∧
    (∀ h, lookup h = some { labels := [], networks := [] } →
       get_compose_labels lookup (some h) = [] ∧
       get_parent_network lookup (some h) = none) := by
  refine ⟨⟨rfl, rfl⟩, ⟨rfl, rfl⟩, ?_, ?_⟩
  · intro h hl
    by_cases hh : h = ""
    · subst hh; exact ⟨rfl, rfl⟩
    · constructor
      · simp [get_compose_labels, hh, hl]
      · simp [get_parent_network, hh, hl]
  · intro h hl
    by_cases hh : h = ""
    · subst hh; exact ⟨rfl, rfl⟩
    · constructor
      · simp [get_compose_labels, hh, hl, compose_keys, lookupEnv]
      · simp [get_parent_network, hh, hl]

/-- Witness for C9: with a raising lookup and with a label-less,
network-less self-container, detection at a concrete hostname yields the
empty mapping and no network. -/
theorem C9_context_detection_witness :
    (get_compose_labels lookupNone none = [] ∧
     get_parent_network lookupNone none = none) ∧
    (get_compose_labels lookupNone (some "abc123") = [] ∧
     get_parent_network lookupNone (some "abc123") = none) ∧
    (get_compose_labels (fun _ => some { labels := [], networks := [] })
        (some "abc123") = [] ∧
     get_parent_network (fun _ => some { labels := [], networks := [] })
        (some "abc123") = none) :=
  ⟨(C9_context_detection lookupNone).1,
   (C9_context_detection lookupNone).2.2.1 "abc123" rfl,
   (C9_context_detection (fun _ => some { labels := [], networks := [] })).2.2.2
     "abc123" rfl⟩

end LdesConsumer
